import Mathlib

/-
Verification of the agent-guard trial search/ranking agents.

The Python sources are embedded shallowly over ℚ (CPython floats are modelled as
exact rationals).  External capabilities — the OpenAI embedding call
(get_embedding), geopy's geodesic(...).km, and the registry fetch — are explicit
function parameters, so every definition below is the deterministic core of an
agent after its external fetches have returned.
-/

namespace AgentGuard

/-- numpy.dot restricted to 1-D float arrays, over ℚ (trailing elements of a
longer vector are ignored; all call sites use equal-length vectors). -/
def dotQ : List ℚ → List ℚ → ℚ
  | a :: as, b :: bs => a * b + dotQ as bs
  | _, _ => 0

/-- Squared euclidean norm of a vector, so that numpy.linalg.norm v =
Rat.sqrt (normSq v) on the perfect-square inputs used below. -/
def normSq (v : List ℚ) : ℚ := dotQ v v

/-- calculate_similarity from Searcher_Agent.py (lines 42-45): cosine similarity
dot(e1, e2) / (norm(e1) * norm(e2)).  Rat.sqrt coincides with the real square
root whenever normSq is a perfect square, which holds for every concrete vector
used in this development; division by zero follows the ℚ convention (0). -/
def calculate_similarity (e1 e2 : List ℚ) : ℚ :=
  dotQ e1 e2 / (Rat.sqrt (normSq e1) * Rat.sqrt (normSq e2))

/-- Python's round(x, n): round half to even (banker's rounding), over ℚ. -/
def pyRound (x : ℚ) (n : ℕ) : ℚ :=
  let m : ℚ := x * (10 : ℚ) ^ n
  let f : ℤ := ⌊m⌋
  let r : ℚ := m - (f : ℚ)
  let k : ℤ :=
    if r < 1 / 2 then f
    else if 1 / 2 < r then f + 1
    else if f % 2 = 0 then f else f + 1
  (k : ℚ) / (10 : ℚ) ^ n

/-- One record of trials_data["trials"] as consumed by
Searcher_Agent.search_and_rank_trials (lines 63-80).  id, title and hospital are
read with mandatory indexing (trial["id"], ...); description carries the value
of trial.get("description", "") with the default already applied; location is
the parsed "location" string, none when the key is absent — the code then falls
back to the default string "0,0", i.e. the coordinates (0, 0). -/
structure STrial where
  id : String
  title : String
  hospital : String
  description : String
  location : Option (ℚ × ℚ)

/-- One entry of the ranked_trials list built by Searcher_Agent (lines 73-80). -/
structure RankedTrial where
  trial_id : String
  title : String
  hospital : String
  similarity_score : ℚ
  distance_km : ℚ
  score : ℚ

/-- The blended score of Searcher_Agent line 72:
score = similarity - (proximity_km / 1000). -/
def blendScore (similarity proximity_km : ℚ) : ℚ :=
  similarity - proximity_km / 1000

/-- Body of the per-trial loop of search_and_rank_trials (lines 64-80), with the
capabilities get_embedding and geodesic(...).km as parameters embed and geo. -/
def scoreTrial (embed : String → List ℚ) (geo : ℚ × ℚ → ℚ × ℚ → ℚ)
    (patient_embedding : List ℚ) (patient_coords : ℚ × ℚ) (t : STrial) :
    RankedTrial :=
  let trial_desc := t.description
  let trial_coords := t.location.getD (0, 0)
  let similarity := calculate_similarity patient_embedding (embed trial_desc)
  let proximity_km := geo patient_coords trial_coords
  { trial_id := t.id
    title := t.title
    hospital := t.hospital
    similarity_score := pyRound similarity 4
    distance_km := pyRound proximity_km 2
    score := blendScore similarity proximity_km }

/-- The order of Python's sorted(ranked_trials, key=lambda x: x["score"],
reverse=True): a stays before b when its score is at least b's. -/
def scoreGE (a b : RankedTrial) : Prop := b.score ≤ a.score

instance : DecidableRel scoreGE :=
  fun a b => inferInstanceAs (Decidable (b.score ≤ a.score))

instance : IsTotal RankedTrial scoreGE := ⟨fun a b => le_total b.score a.score⟩

instance : IsTrans RankedTrial scoreGE :=
  ⟨fun _ _ _ h1 h2 => le_trans h2 h1⟩

/-- sorted(l, key=lambda x: x["score"], reverse=True).  CPython's sort is
stable; stable sorts by one total preorder are extensionally unique, so the
stable insertionSort by scoreGE computes the same list as timsort. -/
def sortByScoreDesc (l : List RankedTrial) : List RankedTrial :=
  l.insertionSort scoreGE

/-- search_and_rank_trials of Searcher_Agent.py (lines 49-83): the
deterministic part after fetch_trials has returned trials and after
patient_location has been parsed to patient_coords. -/
def search_and_rank_trials (embed : String → List ℚ) (geo : ℚ × ℚ → ℚ × ℚ → ℚ)
    (medical_record : String) (patient_coords : ℚ × ℚ) (trials : List STrial) :
    List RankedTrial :=
  let patient_embedding := embed medical_record
  let ranked_trials := trials.map (scoreTrial embed geo patient_embedding patient_coords)
  (sortByScoreDesc ranked_trials).take 10

/-- The texts passed to get_embedding during one run of search_and_rank_trials:
the medical record (line 60) and then every trial's description (line 68), in
call order. -/
def embedCallTexts (medical_record : String) (trials : List STrial) :
    List String :=
  medical_record :: trials.map (·.description)

/-- One record of trials_data["trials"] as consumed by
searcher_agent2.search_and_rank_trials (lines 44-58).  All four fields are read
with .get, so each may be absent (none).  location distinguishes three source
shapes: none = key absent (the default string "0,0" then parses to (0, 0));
some none = a "location" string whose float-parse or geodesic call raises (the
except branch: the record is skipped); some (some c) = parses to c. -/
structure RawTrial2 where
  id : Option String
  title : Option String
  hospital : Option String
  location : Option (Option (ℚ × ℚ))

/-- One entry of ranked_trials in searcher_agent2 (lines 53-58). -/
structure RankedTrial2 where
  trial_id : Option String
  title : Option String
  hospital : Option String
  distance_km : ℚ

/-- Body of the per-trial loop of searcher_agent2 (lines 45-58): none when the
record is skipped by the except branch. -/
def agent2Entry (geo : ℚ × ℚ → ℚ × ℚ → ℚ) (patient_coords : ℚ × ℚ)
    (t : RawTrial2) : Option RankedTrial2 :=
  match t.location with
  | some none => none
  | none =>
      some { trial_id := t.id, title := t.title, hospital := t.hospital
             distance_km := pyRound (geo patient_coords (0, 0)) 2 }
  | some (some c) =>
      some { trial_id := t.id, title := t.title, hospital := t.hospital
             distance_km := pyRound (geo patient_coords c) 2 }

/-- Ascending order on the stored (rounded) distance, the sort key of
searcher_agent2 line 61. -/
def distLE2 (a b : RankedTrial2) : Prop := a.distance_km ≤ b.distance_km

instance : DecidableRel distLE2 :=
  fun a b => inferInstanceAs (Decidable (a.distance_km ≤ b.distance_km))

instance : IsTotal RankedTrial2 distLE2 :=
  ⟨fun a b => le_total a.distance_km b.distance_km⟩

instance : IsTrans RankedTrial2 distLE2 :=
  ⟨fun _ _ _ h1 h2 => le_trans h1 h2⟩

/-- search_and_rank_trials of searcher_agent2.py (lines 31-62), after the fetch
and the parse of patient_location. -/
def search_and_rank_trials2 (geo : ℚ × ℚ → ℚ × ℚ → ℚ)
    (patient_coords : ℚ × ℚ) (trials : List RawTrial2) : List RankedTrial2 :=
  let ranked_trials := trials.filterMap (agent2Entry geo patient_coords)
  (ranked_trials.insertionSort distLE2).take 10

/-- The keys of the dict searcher_agent2 returns (line 62):
only "top_trials" — no count of skipped records is reported. -/
def agent2ResponseKeys : List String := ["top_trials"]

/-- The keys of the dict Searcher_Agent.py returns (line 83): likewise only
"top_trials". -/
def agent1ResponseKeys : List String := ["top_trials"]

/-- startsWith on character lists (used to embed Python's substring test). -/
def subAt : List Char → List Char → Bool
  | [], _ => true
  | _ :: _, [] => false
  | a :: as, b :: bs => a == b && subAt as bs

/-- Contiguous-substring test on character lists. -/
def pySub (n : List Char) : List Char → Bool
  | [] => subAt n []
  | h :: t => subAt n (h :: t) || pySub n t

/-- Python's str.lower() for the ASCII range (the hospital names the agents
compare are ASCII). -/
def lowerChar (c : Char) : Char :=
  if 'A' ≤ c && c ≤ 'Z' then Char.ofNat (c.toNat + 32) else c

/-- needle.lower() in hay.lower(), Python's case-insensitive containment used
by searcher_agent3 line 65 and searcher_agent4 line 173. -/
def pyInLower (needle hay : String) : Bool :=
  pySub (needle.data.map lowerChar) (hay.data.map lowerChar)

/-- One study as consumed by searcher_agent3.search_and_rank_trials (lines
63-83): the flat fields it reads with .get. -/
structure CtgovTrial where
  nctId : Option String
  briefTitle : Option String
  locationFacility : Option String
  briefSummary : Option String

/-- One entry of matching_trials in searcher_agent3 (lines 77-83). -/
structure MatchingTrial3 where
  nct_id : Option String
  title : Option String
  hospital : String
  summary : Option String
  distance_km : ℚ

/-- Ascending order on the stored distance, the sort key of searcher_agent3
line 85. -/
def distLE3 (a b : MatchingTrial3) : Prop := a.distance_km ≤ b.distance_km

instance : DecidableRel distLE3 :=
  fun a b => inferInstanceAs (Decidable (a.distance_km ≤ b.distance_km))

instance : IsTotal MatchingTrial3 distLE3 :=
  ⟨fun a b => le_total a.distance_km b.distance_km⟩

instance : IsTrans MatchingTrial3 distLE3 :=
  ⟨fun _ _ _ h1 h2 => le_trans h1 h2⟩

/-- search_and_rank_trials of searcher_agent3.py (lines 49-86) after the fetch:
trials whose facility does not contain the hospital name (case-insensitively)
are dropped; for the rest the mock geocoding of line 72 sets
trial_coords = patient_coords, so the recorded distance is
geodesic(patient_coords, patient_coords).km. -/
def search_and_rank_trials3 (geo : ℚ × ℚ → ℚ × ℚ → ℚ)
    (patient_hospital : String) (patient_coords : ℚ × ℚ)
    (trials : List CtgovTrial) : List MatchingTrial3 :=
  let matching_trials := trials.filterMap (fun t =>
    let facility := t.locationFacility.getD ""
    if pyInLower patient_hospital facility then
      some { nct_id := t.nctId, title := t.briefTitle, hospital := facility
             summary := t.briefSummary
             distance_km := pyRound (geo patient_coords patient_coords) 2 }
    else none)
  (matching_trials.insertionSort distLE3).take 10

/-- The EligibilityModule dict of a ClinicalTrials.gov study, as read by
extract_eligibility_info in searcher_agent4.py (lines 21-40). -/
structure EligibilityModule where
  eligibilityCriteria : Option String
  healthyVolunteers : Option Bool
  sex : Option String
  minimumAge : Option String
  maximumAge : Option String

/-- The dict extract_eligibility_info returns when the module is present. -/
structure Eligibility4 where
  criteria : String
  healthy_volunteers : Bool
  sex : String
  minimum_age : String
  maximum_age : String

/-- extract_eligibility_info (searcher_agent4 lines 21-40): an absent or empty
module yields the empty dict (none); otherwise each field defaults as in the
source. -/
def extract_eligibility_info (m : Option EligibilityModule) :
    Option Eligibility4 :=
  m.map (fun e =>
    { criteria := e.eligibilityCriteria.getD ""
      healthy_volunteers := e.healthyVolunteers.getD false
      sex := e.sex.getD ""
      minimum_age := e.minimumAge.getD ""
      maximum_age := e.maximumAge.getD "" })

/-- A geoPoint value on a raw location (coordinates, when present). -/
structure GeoPoint where
  lat : ℚ
  lon : ℚ

/-- One entry of contactsLocationsModule["locations"], as read by
extract_locations_info (searcher_agent4 lines 42-69). -/
structure RawLocation where
  facility : Option String
  city : Option String
  state : Option String
  country : Option String
  geoPoint : Option GeoPoint

/-- The formatted location dict built at lines 60-66. -/
structure Location4 where
  facility : String
  city : String
  state : String
  country : String
  geo_point : Option GeoPoint

/-- extract_locations_info (searcher_agent4 lines 42-69); an absent or empty
module was already collapsed to the empty list by the .get defaults. -/
def extract_locations_info (locations : List RawLocation) : List Location4 :=
  locations.map (fun l =>
    { facility := l.facility.getD ""
      city := l.city.getD ""
      state := l.state.getD ""
      country := l.country.getD ""
      geo_point := l.geoPoint })

/-- One raw study of searcher_agent4's search loop (lines 156-163): the fields
of the nested protocolSection modules it reads, with the .get defaults for
absent modules already collapsed (an absent contactsLocationsModule yields the
empty locations list, an absent eligibilityModule yields none). -/
structure RawStudy where
  nctId : Option String
  briefTitle : Option String
  briefSummary : Option String
  overallStatus : Option String
  locations : List RawLocation
  eligibilityModule : Option EligibilityModule

/-- The trial_info dict built at searcher_agent4 lines 179-186. -/
structure TrialInfo where
  nct_id : String
  title : String
  summary : String
  status : String
  locations : List Location4
  eligibility : Option Eligibility4

/-- The search_parameters sub-dict of the result (lines 193-198). -/
structure SearchParams where
  condition : String
  hospital_name : String
  location : String
  max_distance : String

/-- The result dict built at searcher_agent4 lines 190-200. -/
structure SearchResult where
  success : Bool
  total_trials_found : ℕ
  search_parameters : SearchParams
  trials : List TrialInfo

/-- One entry of formatted_trials (searcher_agent4 lines 276-280). -/
structure FormattedTrial where
  nct_id : String
  formatted_text : String
  raw_data : TrialInfo

/-- The dict get_trial_details_formatted returns.  Keys the source omits on a
given path (total_formatted, total_available, error) are none there. -/
structure FormattedResult where
  success : Bool
  error : Option String
  formatted_trials : List FormattedTrial
  total_formatted : Option ℕ
  total_available : Option ℕ

/-- The formatted_text string of searcher_agent4 line 274, with the
eligibility .get defaults of lines 266-271. -/
def formatTrialText (t : TrialInfo) : String :=
  let sex := match t.eligibility with
    | none => "Not specified"
    | some e => e.sex
  let max_age := match t.eligibility with
    | none => "Not specified"
    | some e => e.maximum_age
  let min_age := match t.eligibility with
    | none => "Not specified"
    | some e => e.minimum_age
  let healthy := match t.eligibility with
    | none => "Not specified"
    | some e => if e.healthy_volunteers then "True" else "False"
  let criteria := match t.eligibility with
    | none => "No criteria available"
    | some e => e.criteria
  "Title: " ++ t.title ++ ", Summary: " ++ t.summary ++
    ", Eligibility - Sex: " ++ sex ++ ", Max Age: " ++ max_age ++
    ", Minimum Age: " ++ min_age ++ ", Healthy Volunteer Required: " ++
    healthy ++ ", Full Eligibility Criteria: " ++ criteria

/-- get_trial_details_formatted (searcher_agent4 lines 225-294); the except
branch is unreachable for the total embedded paths. -/
def get_trial_details_formatted (trials_data : SearchResult)
    (max_trials : ℕ) : FormattedResult :=
  if trials_data.success = false then
    { success := false
      error := some "Input trials data indicates failed search"
      formatted_trials := [], total_formatted := none, total_available := none }
  else match trials_data.trials with
  | [] =>
    { success := true
      error := some "No trials found matching the criteria"
      formatted_trials := [], total_formatted := none, total_available := none }
  | _ :: _ =>
    let formatted_trials := (trials_data.trials.take max_trials).map (fun t =>
      { nct_id := t.nct_id, formatted_text := formatTrialText t
        raw_data := t })
    { success := true, error := none
      formatted_trials := formatted_trials
      total_formatted := some formatted_trials.length
      total_available := some trials_data.trials.length }

/-- The matching_trials list of search_trials_by_hospital_and_location
(searcher_agent4 lines 154-188): hospital filter by case-insensitive facility
containment, then the trial_info dict per surviving study. -/
def matchingTrialsOf (studies : List RawStudy) (hospital_name : String) :
    List TrialInfo :=
  studies.filterMap (fun st =>
    let locations := extract_locations_info st.locations
    let keep : Bool :=
      hospital_name == "" ||
        locations.any (fun li => pyInLower hospital_name li.facility)
    if keep then
      some { nct_id := st.nctId.getD "", title := st.briefTitle.getD ""
             summary := st.briefSummary.getD ""
             status := st.overallStatus.getD ""
             locations := locations
             eligibility := extract_eligibility_info st.eligibilityModule }
    else none)

/-- The success-path result dict of searcher_agent4 lines 190-200. -/
def searchResultOf (studies : List RawStudy)
    (condition hospital_name location max_distance : String) : SearchResult :=
  let matching_trials := matchingTrialsOf studies hospital_name
  { success := true
    total_trials_found := matching_trials.length
    search_parameters := { condition := condition, hospital_name := hospital_name
                           location := location, max_distance := max_distance }
    trials := matching_trials }

/-- search_trials_by_hospital_and_location (searcher_agent4 lines 123-221)
after the fetch: the response is always routed through
get_trial_details_formatted with max_trials = 5 (line 204). -/
def search_trials_by_hospital_and_location (studies : List RawStudy)
    (condition hospital_name location max_distance : String) :
    FormattedResult :=
  get_trial_details_formatted
    (searchResultOf studies condition hospital_name location max_distance) 5

/-- Modelled from the spec: §4.2 ProximityScorer's distance-to-score mapping
contribution = 1 / (1 + distance_km / D0), with configurable reference distance
D0 (default 100 km).  This mapping has no implementation under src/ — the
source agents penalize by raw distance (Searcher_Agent line 72) or sort by raw
distance (searcher_agent2/3). -/
def proximityContribution (D0 distance_km : ℚ) : ℚ :=
  1 / (1 + distance_km / D0)

/-- Eligibility verdict for a patient-trial pair (spec §4.4 and glossary). -/
inductive Verdict
  | eligible
  | ineligible
  | unknown
deriving DecidableEq

/-- Patient sex, when known. -/
inductive PSex
  | male
  | female
deriving DecidableEq

/-- A trial's sex restriction (spec §3: any | male | female). -/
inductive SexRestriction
  | anyone
  | maleOnly
  | femaleOnly
deriving DecidableEq

/-- Modelled from the spec: the structured eligibility fields of a canonical
Trial (spec §3) — parsed age bounds in years, sex restriction,
accepts-healthy-volunteers flag, advisory free-text criteria.  No normalizer or
evaluator for these exists under src/; the matcher agent delegates the whole
comparison to an LLM prompt. -/
structure TrialEligibility where
  criteriaText : String
  minAge : Option ℕ
  maxAge : Option ℕ
  sexRestriction : SexRestriction
  healthyVolunteers : Option Bool

/-- Modelled from the spec: the optional structured attributes of a
PatientProfile (spec §3: age, sex when known). -/
structure PatientAttrs where
  age : Option ℕ
  sex : Option PSex

/-- Modelled from the spec: §4.4's age hard-disqualifier — patient age outside
a parsed bound, only when the patient age is known. -/
def ageDisqualifies (p : PatientAttrs) (e : TrialEligibility) : Bool :=
  match p.age with
  | none => false
  | some a =>
      (match e.minAge with | some m => a < m | none => false) ||
      (match e.maxAge with | some m => m < a | none => false)

/-- Modelled from the spec: §4.4's sex hard-disqualifier — a restriction that
is present, with the patient sex known and mismatched. -/
def sexDisqualifies (p : PatientAttrs) (e : TrialEligibility) : Bool :=
  match p.sex, e.sexRestriction with
  | some PSex.male, SexRestriction.femaleOnly => true
  | some PSex.female, SexRestriction.maleOnly => true
  | _, _ => false

/-- Modelled from the spec: §4.4 — no structured eligibility data at all
(the four structured fields are all absent). -/
def noStructuredData (e : TrialEligibility) : Bool :=
  e.minAge.isNone && e.maxAge.isNone &&
    e.sexRestriction == SexRestriction.anyone && e.healthyVolunteers.isNone

/-- Modelled from the spec: §4.4 — some structured criterion whose
corresponding patient attribute is unknown (recorded as "unknown — not
evaluated"; the profile carries no healthy-volunteer attribute, so that flag is
never evaluable). -/
def unknownCriterion (p : PatientAttrs) (e : TrialEligibility) : Bool :=
  ((e.minAge.isSome || e.maxAge.isSome) && p.age.isNone) ||
    (e.sexRestriction != SexRestriction.anyone && p.sex.isNone) ||
    e.healthyVolunteers.isSome

/-- Modelled from the spec: §4.4 EligibilityEvaluator's verdict — ineligible
only on a known contradiction; unknown when no structured data exists or some
criterion could not be evaluated; eligible otherwise.  Absent from src/. -/
def evaluateEligibility (p : PatientAttrs) (e : TrialEligibility) : Verdict :=
  if ageDisqualifies p e || sexDisqualifies p e then Verdict.ineligible
  else if noStructuredData e then Verdict.unknown
  else if unknownCriterion p e then Verdict.unknown
  else Verdict.eligible

/-- Fixture: an embedding capability with orthogonal unit vectors for the
patient record and everything else. -/
def embedOrtho : String → List ℚ :=
  fun s => if s = "rec" then [1, 0] else [0, 1]

/-- Fixture: an embedding capability returning the same unit vector for every
text (cosine similarity 1 everywhere). -/
def embedOne : String → List ℚ :=
  fun _ => [1]

/-- Fixture: a geodesic capability reporting 1000 km for every pair. -/
def geoK (k : ℚ) : ℚ × ℚ → ℚ × ℚ → ℚ :=
  fun _ _ => k

/-- Fixture: a geodesic capability that reports 1234 km to the point (0, 0)
and 5 km to everything else. -/
def geoZeroSensitive : ℚ × ℚ → ℚ × ℚ → ℚ :=
  fun _ b => if b = ((0 : ℚ), (0 : ℚ)) then 1234 else 5

/-- Fixture: a trial record with no "location" key. -/
def trialNoLoc : STrial :=
  { id := "T1", title := "t", hospital := "h", description := "d"
    location := none }

/-- Fixture: a trial record with an empty description. -/
def trialEmptyDesc : STrial :=
  { id := "T1", title := "t", hospital := "h", description := ""
    location := some (5, 5) }

/-- Fixture: trial "T2", listed before "T1" in the C3 batch. -/
def trialT2 : STrial :=
  { id := "T2", title := "t2", hospital := "h", description := "d"
    location := some (1, 1) }

/-- Fixture: trial "T1" of the C3 batch (same description and location as
"T2", hence the same score). -/
def trialT1 : STrial :=
  { id := "T1", title := "t1", hospital := "h", description := "d"
    location := some (1, 1) }

/-- Fixture: a located trial record. -/
def trialLoc : STrial :=
  { id := "T1", title := "t", hospital := "h", description := "d"
    location := some (3, 3) }

/-- Fixture: agent2 record with a parseable location. -/
def rt2a : RawTrial2 :=
  { id := some "A", title := none, hospital := none
    location := some (some (1, 1)) }

/-- Fixture: agent2 record whose location string fails to parse (the except
branch fires). -/
def rt2bad : RawTrial2 :=
  { id := some "BAD", title := none, hospital := none, location := some none }

/-- Fixture: another agent2 record with a parseable location. -/
def rt2c : RawTrial2 :=
  { id := some "C", title := none, hospital := none
    location := some (some (1, 1)) }

/-- Fixture: a ClinicalTrials.gov study for the agent3 pipeline. -/
def ctgovT : CtgovTrial :=
  { nctId := some "NCT1", briefTitle := some "t"
    locationFacility := some "general hospital", briefSummary := none }

/-- Fixture: eligibility bounds 18..65 with no other structured data. -/
def elig1865 : TrialEligibility :=
  { criteriaText := "", minAge := some 18, maxAge := some 65
    sexRestriction := SexRestriction.anyone, healthyVolunteers := none }

/-- Fixture: a patient of age 70 with unknown sex. -/
def patient70 : PatientAttrs := { age := some 70, sex := none }

/-- Fixture: a patient with no known age and no known sex. -/
def patientUnknown : PatientAttrs := { age := none, sex := none }

/-- Fixture: a raw study whose only location is at the given facility. -/
def rawStudyAt (n : ℕ) : RawStudy :=
  { nctId := some ("NCT" ++ toString n), briefTitle := some "t"
    briefSummary := none, overallStatus := some "RECRUITING"
    locations := [{ facility := some "General Hospital", city := none
                    state := none, country := none, geoPoint := none }]
    eligibilityModule := none }

/-- Fixture: seven raw studies, all matching (more than the 5-trial format
cap). -/
def studies7 : List RawStudy :=
  [rawStudyAt 1, rawStudyAt 2, rawStudyAt 3, rawStudyAt 4, rawStudyAt 5,
   rawStudyAt 6, rawStudyAt 7]

/-- Fixture: an embedding capability differing from embedW2 away from the
texts the C9 witness run queries. -/
def embedW1 : String → List ℚ :=
  fun s => if s = "rec" then [1] else [2]

/-- Fixture: agrees with embedW1 on "rec" and "d" but not elsewhere. -/
def embedW2 : String → List ℚ :=
  fun s => if s = "rec" then [1] else if s = "d" then [2] else [99]

/-- Fixture: a geodesic capability agreeing with geoK 5 only at the point
(3, 3) that the C9 witness run queries. -/
def geoW2 : ℚ × ℚ → ℚ × ℚ → ℚ :=
  fun _ b => if b = ((3 : ℚ), (3 : ℚ)) then 5 else 77

/-- Rat.sqrt agrees with the real square root at 1. -/
theorem ratSqrt_one : Rat.sqrt 1 = 1 := by
  have h : (1 : ℚ) = 1 * 1 := by norm_num
  rw [h, Rat.sqrt_eq]; norm_num

/-- Cosine similarity of two orthogonal unit vectors is 0. -/
theorem calcSim_ortho : calculate_similarity [1, 0] [0, 1] = 0 := by
  simp [calculate_similarity, dotQ, normSq]

/-- Cosine similarity of the unit vector [1] with itself is 1. -/
theorem calcSim_one : calculate_similarity [1] [1] = 1 := by
  have h1 : normSq [(1 : ℚ)] = 1 := by simp [normSq, dotQ]
  simp [calculate_similarity, dotQ, h1, ratSqrt_one]

/-- pyRound is the identity on integral rationals. -/
theorem pyRound_intCast (z : ℤ) (n : ℕ) : pyRound (z : ℚ) n = z := by
  have hm : ((z : ℚ)) * (10 : ℚ) ^ n = ((z * 10 ^ n : ℤ) : ℚ) := by push_cast; ring
  simp only [pyRound, hm, Int.floor_intCast, sub_self]
  rw [if_pos (by norm_num)]
  push_cast
  rw [mul_div_assoc, div_self (by positivity), mul_one]

/-- C1 (counterexample): the composite score Searcher_Agent ranks by is not
w_r * relevance + w_p * proximity_contribution with w_r + w_p = 1.  On a
concrete run (relevance 0, distance 1000 km) the code scores -1 while the
claimed formula with the default weights 0.7/0.3 gives 3/110, and no weight
pair summing to 1 reproduces the code's blend at all inputs. -/
theorem c1_counterexample :
    (search_and_rank_trials embedOrtho (geoK 1000) "rec" (0, 0) [trialLoc]).map
        (fun r => r.score) = [-1] ∧
    (7 / 10 : ℚ) * calculate_similarity (embedOrtho "rec") (embedOrtho "d") +
        (3 / 10) * proximityContribution 100 1000 = 3 / 110 ∧
    ((-1 : ℚ) ≠ 3 / 110) ∧
    ¬ ∃ w_r w_p : ℚ, w_r + w_p = 1 ∧ ∀ relevance proximity_km : ℚ,
        blendScore relevance proximity_km =
          w_r * relevance + w_p * proximityContribution 100 proximity_km := by
  refine ⟨?_, ?_, by norm_num, ?_⟩
  · simp [search_and_rank_trials, sortByScoreDesc, scoreTrial, trialLoc,
      embedOrtho, geoK, List.insertionSort, List.orderedInsert]
    norm_num [calcSim_ortho, blendScore]
  · have h : calculate_similarity (embedOrtho "rec") (embedOrtho "d") = 0 := by
      simpa [embedOrtho] using calcSim_ortho
    rw [h]
    norm_num [proximityContribution]
  · rintro ⟨wr, wp, hsum, hall⟩
    have h0 := hall 0 0
    have h1 := hall 0 1000
    simp [blendScore, proximityContribution] at h0 h1
    norm_num at h0 h1
    linarith

/-- C1 (amended): every trial in the ranked output of search_and_rank_trials
carries the composite score
similarity - proximity_km / 1000 — the cosine similarity of the patient and
trial embeddings minus the raw geodesic distance scaled by 1/1000, not a
normalized weighted combination. -/
theorem c1_composite_is_blend (embed : String → List ℚ)
    (geo : ℚ × ℚ → ℚ × ℚ → ℚ) (mr : String) (pc : ℚ × ℚ) (ts : List STrial)
    (r : RankedTrial) (hr : r ∈ search_and_rank_trials embed geo mr pc ts) :
    ∃ t ∈ ts, r.score =
      blendScore (calculate_similarity (embed mr) (embed t.description))
        (geo pc (t.location.getD (0, 0))) := by
  have hr1 : r ∈ sortByScoreDesc (ts.map (scoreTrial embed geo (embed mr) pc)) :=
    List.take_subset 10 _ (by simpa [search_and_rank_trials] using hr)
  have hr2 : r ∈ ts.map (scoreTrial embed geo (embed mr) pc) :=
    (List.perm_insertionSort scoreGE _).mem_iff.mp hr1
  rcases List.mem_map.mp hr2 with ⟨t, ht, hrt⟩
  refine ⟨t, ht, ?_⟩
  rw [← hrt]
  rfl

/-- C1 (witness): the amended composite-score formula instantiated on a
concrete one-trial run. -/
theorem c1_composite_is_blend_witness :
    scoreTrial embedOne (geoK 2) (embedOne "rec") (0, 0) trialLoc ∈
      search_and_rank_trials embedOne (geoK 2) "rec" (0, 0) [trialLoc] ∧
    ∃ t ∈ [trialLoc],
      (scoreTrial embedOne (geoK 2) (embedOne "rec") (0, 0) trialLoc).score =
        blendScore (calculate_similarity (embedOne "rec") (embedOne t.description))
          (geoK 2 (0, 0) (t.location.getD (0, 0))) := by
  have hmem : scoreTrial embedOne (geoK 2) (embedOne "rec") (0, 0) trialLoc ∈
      search_and_rank_trials embedOne (geoK 2) "rec" (0, 0) [trialLoc] := by
    simp [search_and_rank_trials, sortByScoreDesc, List.insertionSort,
      List.orderedInsert]
  exact ⟨hmem, c1_composite_is_blend embedOne (geoK 2) "rec" (0, 0) [trialLoc] _ hmem⟩

/-- C2 (counterexample): a patient-trial pair whose spec-modelled eligibility
verdict is ineligible (age 70 against a known max age of 65), while the ranking
pipeline of Searcher_Agent — which computes no verdict and fetches no
eligibility data at all — still ranks the trial in its output. -/
theorem c2_counterexample :
    evaluateEligibility patient70 elig1865 = Verdict.ineligible ∧
    (search_and_rank_trials embedOne (geoK 1) "rec" (0, 0) [trialLoc]).map
        (fun r => r.trial_id) = ["T1"] := by
  refine ⟨by decide, ?_⟩
  simp [search_and_rank_trials, sortByScoreDesc, scoreTrial, trialLoc, embedOne,
    geoK, List.insertionSort, List.orderedInsert]

/-- C2 (amended): search_and_rank_trials applies no eligibility filter: every
ranked entry comes from an input trial, and when at most 10 trials are fetched
every input trial appears in the ranked output, whatever its eligibility. -/
theorem c2_no_eligibility_filter (embed : String → List ℚ)
    (geo : ℚ × ℚ → ℚ × ℚ → ℚ) (mr : String) (pc : ℚ × ℚ) (ts : List STrial) :
    (∀ r ∈ search_and_rank_trials embed geo mr pc ts, ∃ t ∈ ts, r.trial_id = t.id) ∧
    (ts.length ≤ 10 → ∀ t ∈ ts,
      ∃ r ∈ search_and_rank_trials embed geo mr pc ts, r.trial_id = t.id) := by
  constructor
  · intro r hr
    have hr1 : r ∈ sortByScoreDesc (ts.map (scoreTrial embed geo (embed mr) pc)) := by
      have := List.take_subset 10 (sortByScoreDesc (ts.map (scoreTrial embed geo (embed mr) pc)))
      exact this (by simpa [search_and_rank_trials] using hr)
    have hr2 : r ∈ ts.map (scoreTrial embed geo (embed mr) pc) :=
      (List.perm_insertionSort scoreGE _).mem_iff.mp hr1
    rcases List.mem_map.mp hr2 with ⟨t, ht, hrt⟩
    refine ⟨t, ht, ?_⟩
    rw [← hrt]
    rfl
  · intro hlen t ht
    refine ⟨scoreTrial embed geo (embed mr) pc t, ?_, rfl⟩
    have hmem : scoreTrial embed geo (embed mr) pc t ∈
        sortByScoreDesc (ts.map (scoreTrial embed geo (embed mr) pc)) :=
      (List.perm_insertionSort scoreGE _).mem_iff.mpr (List.mem_map_of_mem _ ht)
    have hall : (sortByScoreDesc (ts.map (scoreTrial embed geo (embed mr) pc))).take 10 =
        sortByScoreDesc (ts.map (scoreTrial embed geo (embed mr) pc)) := by
      apply List.take_of_length_le
      calc (sortByScoreDesc (ts.map (scoreTrial embed geo (embed mr) pc))).length
          = (ts.map (scoreTrial embed geo (embed mr) pc)).length :=
            (List.perm_insertionSort scoreGE _).length_eq
        _ = ts.length := List.length_map _ _
        _ ≤ 10 := hlen
    simpa [search_and_rank_trials, hall] using hmem

/-- C3 (counterexample): two trials with equal composite score (and equal
proximity) keep their input order in the ranked output — "T2" stays before
"T1" although the trial-id-ascending tie-break the claim states would put
"T1" first. -/
theorem c3_counterexample :
    (search_and_rank_trials embedOne (geoK 100) "rec" (0, 0) [trialT2, trialT1]).map
        (fun r => r.trial_id) = ["T2", "T1"] ∧
    (search_and_rank_trials embedOne (geoK 100) "rec" (0, 0) [trialT2, trialT1]).map
        (fun r => r.score) = [9 / 10, 9 / 10] ∧
    (search_and_rank_trials embedOne (geoK 100) "rec" (0, 0) [trialT2, trialT1]).map
        (fun r => r.distance_km) = [100, 100] ∧
    "T1" < "T2" := by
  have hr100 : pyRound ((100 : ℚ)) 2 = 100 := by
    have h := pyRound_intCast 100 2
    norm_num at h
    exact h
  refine ⟨?_, ?_, ?_, ?_⟩
  · simp [search_and_rank_trials, sortByScoreDesc, scoreTrial, trialT2, trialT1,
      embedOne, geoK, List.insertionSort, List.orderedInsert, scoreGE]
  · simp [search_and_rank_trials, sortByScoreDesc, scoreTrial, trialT2, trialT1,
      embedOne, geoK, List.insertionSort, List.orderedInsert, scoreGE]
    norm_num [calcSim_one, blendScore]
  · simp [search_and_rank_trials, sortByScoreDesc, scoreTrial, trialT2, trialT1,
      embedOne, geoK, List.insertionSort, List.orderedInsert, scoreGE, hr100]
  · exact (@String.lt_iff_toList_lt "T1" "T2").mpr (by decide)

/-- C3 (amended): the ranked output is sorted descending by composite score,
has length min 10 (number of candidates), and consists of the 10 highest
composite scores: the remaining candidates all score no higher than any ranked
entry.  Ties keep input order (stable sort), with no proximity or trial-id
tie-break. -/
theorem c3_sorted_descending_top10 (embed : String → List ℚ)
    (geo : ℚ × ℚ → ℚ × ℚ → ℚ) (mr : String) (pc : ℚ × ℚ) (ts : List STrial) :
    (search_and_rank_trials embed geo mr pc ts).Pairwise scoreGE ∧
    (search_and_rank_trials embed geo mr pc ts).length = min 10 ts.length ∧
    ∃ rest : List RankedTrial,
      (ts.map (scoreTrial embed geo (embed mr) pc)).Perm
        (search_and_rank_trials embed geo mr pc ts ++ rest) ∧
      ∀ a ∈ search_and_rank_trials embed geo mr pc ts, ∀ b ∈ rest,
        b.score ≤ a.score := by
  have hsorted : (sortByScoreDesc (ts.map (scoreTrial embed geo (embed mr) pc))).Pairwise
      scoreGE :=
    List.sorted_insertionSort scoreGE (ts.map (scoreTrial embed geo (embed mr) pc))
  have hsplit : (sortByScoreDesc (ts.map (scoreTrial embed geo (embed mr) pc))).take 10 ++
      (sortByScoreDesc (ts.map (scoreTrial embed geo (embed mr) pc))).drop 10 =
      sortByScoreDesc (ts.map (scoreTrial embed geo (embed mr) pc)) :=
    List.take_append_drop 10 _
  have hpw := List.pairwise_append.mp (hsplit ▸ hsorted)
  refine ⟨?_, ?_, ?_⟩
  · simpa [search_and_rank_trials] using hpw.1
  · have hlen2 : (sortByScoreDesc (ts.map (scoreTrial embed geo (embed mr) pc))).length =
        ts.length := by
      simp only [sortByScoreDesc]
      rw [(List.perm_insertionSort scoreGE _).length_eq, List.length_map]
    simp [search_and_rank_trials, List.length_take, hlen2]
  · refine ⟨(sortByScoreDesc (ts.map (scoreTrial embed geo (embed mr) pc))).drop 10, ?_, ?_⟩
    · have h1 : (ts.map (scoreTrial embed geo (embed mr) pc)).Perm
          (sortByScoreDesc (ts.map (scoreTrial embed geo (embed mr) pc))) :=
        (List.perm_insertionSort scoreGE _).symm
      simpa [search_and_rank_trials, hsplit] using h1
    · intro a ha b hb
      exact hpw.2.2 a (by simpa [search_and_rank_trials] using ha) b hb

/-- C4: evaluation of the code at the failing input.  A trial whose record has
no "location" key is given the default coordinates (0, 0): the ranked entry's
distance is the geodesic distance from the patient to (0, 0) — here 1234 km —
not the (None, 0.0) the claim states.  searcher_agent3 likewise substitutes the
patient's own coordinates for every trial, recording
geodesic(patient, patient) = 0. -/
theorem c4_missing_location_defaults :
    (search_and_rank_trials embedOne geoZeroSensitive "rec" (10, 10) [trialNoLoc]).map
        (fun r => r.distance_km) = [1234] ∧
    geoZeroSensitive (10, 10) (0, 0) = 1234 ∧
    (search_and_rank_trials3 (geoK 0) "general" (10, 10) [ctgovT]).map
        (fun r => r.distance_km) = [0] ∧
    geoK 0 (10, 10) (10, 10) = 0 := by
  have h1234 : pyRound ((1234 : ℚ)) 2 = 1234 := by
    have h := pyRound_intCast 1234 2
    norm_num at h
    exact h
  have h0 : pyRound ((0 : ℚ)) 2 = 0 := by
    have h := pyRound_intCast 0 2
    norm_num at h
    exact h
  have hin : pyInLower "general" "general hospital" = true := by decide
  refine ⟨?_, rfl, ?_, rfl⟩
  · simp [search_and_rank_trials, sortByScoreDesc, scoreTrial, trialNoLoc,
      embedOne, geoZeroSensitive, List.insertionSort, List.orderedInsert, h1234]
  · simp [search_and_rank_trials3, ctgovT, geoK, hin,
      List.insertionSort, List.orderedInsert, h0]

/-- C5: for a closer trial A (distance dA < dB, both nonnegative, reference
distance D0 > 0) the spec's proximity contribution 1 / (1 + d / D0) is strictly
larger, the contribution lies in (0, 1] and equals 1 exactly at distance 0,
and with equal relevance the code's composite score of the closer trial is
strictly larger. -/
theorem c5_distance_monotonicity (D0 dA dB s : ℚ) (hD0 : 0 < D0) (h0 : 0 ≤ dA)
    (hAB : dA < dB) :
    proximityContribution D0 dB < proximityContribution D0 dA ∧
    0 < proximityContribution D0 dB ∧
    proximityContribution D0 dA ≤ 1 ∧
    (∀ d : ℚ, 0 ≤ d → (proximityContribution D0 d = 1 ↔ d = 0)) ∧
    blendScore s dB < blendScore s dA := by
  have h0B : (0 : ℚ) ≤ dB := le_of_lt (lt_of_le_of_lt h0 hAB)
  have hA : (0 : ℚ) < 1 + dA / D0 := by
    have : (0 : ℚ) ≤ dA / D0 := div_nonneg h0 hD0.le
    linarith
  have hB : (0 : ℚ) < 1 + dB / D0 := by
    have : (0 : ℚ) ≤ dB / D0 := div_nonneg h0B hD0.le
    linarith
  have hABd : dA / D0 < dB / D0 := by gcongr
  refine ⟨?_, ?_, ?_, ?_, ?_⟩
  · exact one_div_lt_one_div_of_lt hA (by linarith)
  · exact one_div_pos.mpr hB
  · rw [proximityContribution, div_le_one hA]
    have : (0 : ℚ) ≤ dA / D0 := div_nonneg h0 hD0.le
    linarith
  · intro d hd
    have hDd : (0 : ℚ) < 1 + d / D0 := by
      have : (0 : ℚ) ≤ d / D0 := div_nonneg hd hD0.le
      linarith
    rw [proximityContribution, div_eq_one_iff_eq (ne_of_gt hDd)]
    constructor
    · intro h
      have hdd : d / D0 = 0 := by linarith
      rcases div_eq_zero_iff.mp hdd with h1 | h1
      · exact h1
      · exact absurd h1 (ne_of_gt hD0)
    · intro h
      rw [h]
      norm_num
  · unfold blendScore
    have : dA / 1000 < dB / 1000 := by linarith
    linarith

/-- C5 (witness): the monotonicity and boundedness facts instantiated at
D0 = 100, distances 50 and 200, relevance 0. -/
theorem c5_distance_monotonicity_witness :
    (0 : ℚ) < 100 ∧ (0 : ℚ) ≤ 50 ∧ (50 : ℚ) < 200 ∧
    (proximityContribution 100 200 < proximityContribution 100 50 ∧
      0 < proximityContribution 100 200 ∧
      proximityContribution 100 50 ≤ 1 ∧
      (∀ d : ℚ, 0 ≤ d → (proximityContribution 100 d = 1 ↔ d = 0)) ∧
      blendScore 0 200 < blendScore 0 50) :=
  ⟨by norm_num, by norm_num, by norm_num,
    c5_distance_monotonicity 100 50 200 0 (by norm_num) (by norm_num) (by norm_num)⟩

/-- C6 (counterexample): a trial with empty description still has its (empty)
text sent to the embedding capability, and its relevance is the cosine
similarity of the returned vectors — here 1, not the claimed fixed 0.0. -/
theorem c6_counterexample :
    ("" ∈ embedCallTexts "rec" [trialEmptyDesc]) ∧
    calculate_similarity (embedOne "rec") (embedOne "") = 1 ∧ ((1 : ℚ) ≠ 0) ∧
    (search_and_rank_trials embedOne (geoK 0) "rec" (0, 0) [trialEmptyDesc]).map
        (fun r => r.score) = [1] := by
  refine ⟨by simp [embedCallTexts, trialEmptyDesc], ?_, by norm_num, ?_⟩
  · simpa [embedOne] using calcSim_one
  · simp [search_and_rank_trials, sortByScoreDesc, scoreTrial, trialEmptyDesc,
      embedOne, geoK, List.insertionSort, List.orderedInsert]
    norm_num [calcSim_one, blendScore]

/-- C6 (amended): search_and_rank_trials invokes the embedding capability on
every trial's description — the empty string included — and each trial's score
uses the cosine similarity of the patient and trial embeddings; there is no
0.0 short-circuit for empty trial text. -/
theorem c6_embedding_always_invoked (embed : String → List ℚ)
    (geo : ℚ × ℚ → ℚ × ℚ → ℚ) (mr : String) (pc : ℚ × ℚ) (ts : List STrial) :
    (∀ t ∈ ts, t.description ∈ embedCallTexts mr ts) ∧
    (∀ t ∈ ts, (scoreTrial embed geo (embed mr) pc t).score =
      blendScore (calculate_similarity (embed mr) (embed t.description))
        (geo pc (t.location.getD (0, 0)))) := by
  constructor
  · intro t ht
    exact List.mem_cons_of_mem _ (List.mem_map_of_mem _ ht)
  · intro t ht
    rfl

/-- C7 (counterexample): a record whose location fails to parse is skipped and
the other records are still ranked (isolation holds), but the response dict
holds only the key "top_trials" — no skipped_count or any other count of the
degraded records. -/
theorem c7_counterexample :
    (search_and_rank_trials2 (geoK 7) (0, 0) [rt2a, rt2bad, rt2c]).map
        (fun r => r.trial_id) = [some "A", some "C"] ∧
    agent2ResponseKeys = ["top_trials"] ∧ "skipped_count" ∉ agent2ResponseKeys := by
  refine ⟨?_, rfl, by decide⟩
  simp [search_and_rank_trials2, agent2Entry, rt2a, rt2bad, rt2c, geoK,
    List.insertionSort, List.orderedInsert, distLE2]

/-- C7 (amended): a coordinate-parse failure is isolated — the batch result
equals the result on the batch with the failing records removed, so one bad
record never aborts the batch — but the response reports no count of skipped
records: its only key is top_trials. -/
theorem c7_skip_isolated_without_count (geo : ℚ × ℚ → ℚ × ℚ → ℚ)
    (pc : ℚ × ℚ) (ts : List RawTrial2) :
    search_and_rank_trials2 geo pc ts =
      search_and_rank_trials2 geo pc
        (ts.filter (fun t => decide (t.location ≠ some none))) ∧
    agent2ResponseKeys = ["top_trials"] := by
  refine ⟨?_, rfl⟩
  have h : ts.filterMap (agent2Entry geo pc) =
      (ts.filter (fun t => decide (t.location ≠ some none))).filterMap
        (agent2Entry geo pc) := by
    induction ts with
    | nil => rfl
    | cons a l ih =>
        rcases hloc : a.location with _ | loc2
        · simp [List.filterMap_cons, List.filter_cons, agent2Entry, hloc, ih]
        · rcases loc2 with _ | c
          · simp [List.filterMap_cons, List.filter_cons, agent2Entry, hloc, ih]
          · simp [List.filterMap_cons, List.filter_cons, agent2Entry, hloc, ih]
  simp only [search_and_rank_trials2, h]

/-- C8: under the spec-modelled eligibility evaluator, a patient whose age and
sex are unknown is never judged ineligible, whatever structured criteria the
trial carries (known age bounds included): the verdict is unknown or
eligible. -/
theorem c8_unknown_never_ineligible (p : PatientAttrs) (e : TrialEligibility)
    (hage : p.age = none) (hsex : p.sex = none) :
    evaluateEligibility p e ≠ Verdict.ineligible ∧
    (evaluateEligibility p e = Verdict.unknown ∨
      evaluateEligibility p e = Verdict.eligible) := by
  have ha : ageDisqualifies p e = false := by simp [ageDisqualifies, hage]
  have hs : sexDisqualifies p e = false := by simp [sexDisqualifies, hsex]
  constructor
  · simp only [evaluateEligibility, ha, hs]
    split_ifs <;> simp_all
  · simp only [evaluateEligibility, ha, hs]
    split_ifs <;> simp_all

/-- C8 (witness): the unknown-age patient against bounds 18..65 — the claim's
own scenario — gets a verdict other than ineligible. -/
theorem c8_unknown_never_ineligible_witness :
    patientUnknown.age = none ∧ patientUnknown.sex = none ∧
    (evaluateEligibility patientUnknown elig1865 ≠ Verdict.ineligible ∧
      (evaluateEligibility patientUnknown elig1865 = Verdict.unknown ∨
        evaluateEligibility patientUnknown elig1865 = Verdict.eligible)) :=
  ⟨rfl, rfl, c8_unknown_never_ineligible patientUnknown elig1865 rfl rfl⟩

/-- C9: the ranking pipeline is deterministic in its inputs and capability
results: two runs whose capabilities return the same embeddings for the texts
actually embedded and the same distances for the coordinate pairs actually
queried produce identical ordered output. -/
theorem c9_determinism (embed₁ embed₂ : String → List ℚ)
    (geo₁ geo₂ : ℚ × ℚ → ℚ × ℚ → ℚ) (mr : String) (pc : ℚ × ℚ) (ts : List STrial)
    (hmr : embed₁ mr = embed₂ mr)
    (hdesc : ∀ t ∈ ts, embed₁ t.description = embed₂ t.description)
    (hgeo : ∀ t ∈ ts, geo₁ pc (t.location.getD (0, 0)) =
      geo₂ pc (t.location.getD (0, 0))) :
    search_and_rank_trials embed₁ geo₁ mr pc ts =
      search_and_rank_trials embed₂ geo₂ mr pc ts := by
  have hmap : ts.map (scoreTrial embed₁ geo₁ (embed₁ mr) pc) =
      ts.map (scoreTrial embed₂ geo₂ (embed₂ mr) pc) := by
    apply List.map_congr_left
    intro t ht
    have hd := hdesc t ht
    have hg := hgeo t ht
    simp only [scoreTrial, hmr, hd, hg]
  simp only [search_and_rank_trials, hmap]

/-- C9 (witness): two globally different capability pairs that agree on the
queried texts and coordinates yield the same ranked output on a concrete
run. -/
theorem c9_determinism_witness :
    search_and_rank_trials embedW1 (geoK 5) "rec" (0, 0) [trialLoc] =
      search_and_rank_trials embedW2 geoW2 "rec" (0, 0) [trialLoc] :=
  c9_determinism embedW1 embedW2 (geoK 5) geoW2 "rec" (0, 0) [trialLoc]
    (by simp [embedW1, embedW2])
    (by
      intro t ht
      simp only [List.mem_singleton] at ht
      subst ht
      simp [embedW1, embedW2, trialLoc])
    (by
      intro t ht
      simp only [List.mem_singleton] at ht
      subst ht
      simp [geoK, geoW2, trialLoc])

/-- C10 (counterexample): when no trial matches, the response omits
total_available entirely (the key is absent, modelled as none) instead of
reporting the full match count 0. -/
theorem c10_counterexample :
    matchingTrialsOf [] "" = [] ∧
    (search_trials_by_hospital_and_location [] "cancer" "" "loc"
        "50mi").total_available = none ∧
    (search_trials_by_hospital_and_location [] "cancer" "" "loc"
        "50mi").formatted_trials.length = 0 := by
  refine ⟨rfl, ?_, ?_⟩ <;>
    simp [search_trials_by_hospital_and_location, get_trial_details_formatted,
      searchResultOf, matchingTrialsOf]

/-- C10 (amended): the search response is exactly get_trial_details_formatted applied
with max_trials = 5, so formatted_trials never exceeds 5 entries however many
trials matched, and whenever any trial matched, total_available reports the
full match count while formatted_trials holds min 5 of them. -/
theorem c10_formatted_response_cap (studies : List RawStudy)
    (condition hospital_name location max_distance : String) :
    search_trials_by_hospital_and_location studies condition hospital_name
        location max_distance =
      get_trial_details_formatted
        (searchResultOf studies condition hospital_name location max_distance) 5 ∧
    (search_trials_by_hospital_and_location studies condition hospital_name
        location max_distance).formatted_trials.length ≤ 5 ∧
    (matchingTrialsOf studies hospital_name ≠ [] →
      (search_trials_by_hospital_and_location studies condition hospital_name
          location max_distance).total_available =
        some (matchingTrialsOf studies hospital_name).length ∧
      (search_trials_by_hospital_and_location studies condition hospital_name
          location max_distance).formatted_trials.length =
        min 5 (matchingTrialsOf studies hospital_name).length) := by
  refine ⟨rfl, ?_, ?_⟩
  · cases h : matchingTrialsOf studies hospital_name with
    | nil =>
        simp [search_trials_by_hospital_and_location, get_trial_details_formatted,
          searchResultOf, h]
    | cons a l =>
        simp [search_trials_by_hospital_and_location, get_trial_details_formatted,
          searchResultOf, h, List.length_take]
  · intro hne
    rcases hl : matchingTrialsOf studies hospital_name with _ | ⟨a, l⟩
    · exact absurd hl hne
    · constructor
      · simp [search_trials_by_hospital_and_location, get_trial_details_formatted,
          searchResultOf, hl]
      · simp [search_trials_by_hospital_and_location, get_trial_details_formatted,
          searchResultOf, hl, List.length_take]
        omega

end AgentGuard
